import Mathlib

/-!
Shallow embedding of the tyr-nextflap adapter (`src/__init__.py`).

The file embeds the single Python module of the repository: the class
`NextFLAPPlanner`, its helper `_on_import_error`, and the external surface it
delegates to.  Python exceptions are modelled by the `PyError` type and
fallible calls return `Except PyError _`.  The external `up_nextflap` package
is opaque to the adapter; it is modelled as a structure of abstract functions
(`UpNextflap`, `EngineHandle`) over caller-chosen payload types
(`AdapterTypes`), so that the adapter's forwarding behaviour can be stated
for every possible external engine.
-/

/-- Python exception values that can cross the adapter's boundary.
`importError` models `ImportError`, `runtimeError` models `RuntimeError`,
`attributeError` models `AttributeError` (a null-reference-style failure on a
missing attribute), and `otherError` covers any other exception class. -/
inductive PyError where
  | importError (msg : String)
  | runtimeError (msg : String)
  | attributeError (msg : String)
  | otherError (msg : String)
deriving DecidableEq, Repr

/-- The message carried by a Python exception (its `str(e)`). -/
def PyError.msg : PyError → String
  | .importError m => m
  | .runtimeError m => m
  | .attributeError m => m
  | .otherError m => m

/-- Modelled from the spec: `ProblemKind` belongs to the external
unified_planning library (not in src/); the spec describes it as a capability
descriptor, a set of supported problem features compared by the subset
partial order (`<=` means "is a subset of"). We embed it as a finite set of
feature codes. -/
abbrev ProblemKind := Finset Nat

/-- The caller-side payload types the adapter forwards opaquely: problems,
plans, callbacks, timeouts, output streams, results, plan kinds, credits and
constructor keyword arguments.  The adapter never inspects these values. -/
structure AdapterTypes where
  Problem : Type
  Callback : Type
  Timeout : Type
  Stream : Type
  PGResult : Type
  Plan : Type
  VResult : Type
  PlanKind : Type
  Credits : Type
  Kwargs : Type

/-- An instantiated external `NextFLAPImpl` object (the engine handle stored
in `self._nextflap_engine`).  Its `_solve` and `_validate` methods are
arbitrary functions that may raise; `destroyCount` records how many times the
adapter invoked the external `destroy()` on this handle. -/
structure EngineHandle (τ : AdapterTypes) where
  solveImpl : τ.Problem → Option τ.Callback → Option τ.Timeout → Option τ.Stream →
    Except PyError τ.PGResult
  validateImpl : τ.Problem → τ.Plan → Except PyError τ.VResult
  destroyCount : Nat

/-- The external `NextFLAPImpl.destroy()` call: its only adapter-visible
effect is recorded by bumping the invocation counter. -/
def EngineHandle.destroyCall (τ : AdapterTypes) (e : EngineHandle τ) : EngineHandle τ :=
  { e with destroyCount := e.destroyCount + 1 }

/-- The importable external module surface `up_nextflap.NextFLAPImpl`:
its static capability queries and its constructor (which may raise). -/
structure UpNextflap (τ : AdapterTypes) where
  supported_kind : ProblemKind
  supports_plan : τ.PlanKind → Bool
  get_credits : τ.Kwargs → Option τ.Credits
  newImpl : τ.Kwargs → Except PyError (EngineHandle τ)

/-- The result of executing `from up_nextflap import NextFLAPImpl`: either the
module resolves, or the import raises an `ImportError` with some message. -/
abbrev ImportOutcome (τ : AdapterTypes) := Except String (UpNextflap τ)

/-- Embeds `_on_import_error` (src/__init__.py lines 10-19): wraps the
original import failure in a descriptive `ImportError` naming the install
script under the package directory `current_dir` and the native build
dependencies. -/
def onImportError (current_dir : String) (e : String) : PyError :=
  .importError
    ("NextFLAP implementation not found. Error: " ++ e ++ "\n\n" ++
     "To install NextFLAP:\n" ++ "   " ++
     "bash " ++ current_dir ++ "/install.sh" ++ "\n\n" ++
     "Note: Building NextFLAP requires system dependencies (g++, libz3-dev).")

/-- The state of a `NextFLAPPlanner` instance: `nextflap_engine = some h`
models an instance carrying the `_nextflap_engine` attribute (set by a
successful `__init__`), `none` models an instance on which the attribute was
never set (`hasattr` is false). -/
structure NextFLAPPlanner (τ : AdapterTypes) where
  nextflap_engine : Option (EngineHandle τ)

/-- Embeds `NextFLAPPlanner.__init__` (lines 30-40): imports `up_nextflap`
and instantiates `NextFLAPImpl(**kwargs)`; an `ImportError` raised by either
the import or the constructor is translated through `_on_import_error`; any
other exception from the constructor propagates unchanged.  On success the
engine handle is stored. -/
def NextFLAPPlanner.init (τ : AdapterTypes) (current_dir : String)
    (imp : ImportOutcome τ) (kwargs : τ.Kwargs) :
    Except PyError (NextFLAPPlanner τ) :=
  match imp with
  | .error e => .error (onImportError current_dir e)
  | .ok m =>
    match m.newImpl kwargs with
    | .ok eng => .ok ⟨some eng⟩
    | .error (.importError s) => .error (onImportError current_dir s)
    | .error err => .error err

/-- Embeds the `name` property (lines 42-44). -/
def NextFLAPPlanner.name (τ : AdapterTypes) (_self : NextFLAPPlanner τ) : String :=
  "nextflap"

/-- Embeds the static `supported_kind` (lines 46-54): re-attempts the import
and forwards; an import failure is translated through `_on_import_error`. -/
def NextFLAPPlanner.supported_kind (τ : AdapterTypes) (current_dir : String)
    (imp : ImportOutcome τ) : Except PyError ProblemKind :=
  match imp with
  | .ok m => .ok m.supported_kind
  | .error e => .error (onImportError current_dir e)

/-- Embeds the static `supports` (lines 56-59): evaluates
`problem_kind <= NextFLAPPlanner.supported_kind()`; if `supported_kind`
raises, the exception propagates. -/
def NextFLAPPlanner.supports (τ : AdapterTypes) (current_dir : String)
    (imp : ImportOutcome τ) (problem_kind : ProblemKind) : Except PyError Bool :=
  (NextFLAPPlanner.supported_kind τ current_dir imp).map
    (fun sk => decide (problem_kind ⊆ sk))

/-- Embeds the static `supports_plan` (lines 61-69). -/
def NextFLAPPlanner.supports_plan (τ : AdapterTypes) (current_dir : String)
    (imp : ImportOutcome τ) (plan_kind : τ.PlanKind) : Except PyError Bool :=
  match imp with
  | .ok m => .ok (m.supports_plan plan_kind)
  | .error e => .error (onImportError current_dir e)

/-- Embeds the static `get_credits` (lines 71-79). -/
def NextFLAPPlanner.get_credits (τ : AdapterTypes) (current_dir : String)
    (imp : ImportOutcome τ) (kwargs : τ.Kwargs) : Except PyError (Option τ.Credits) :=
  match imp with
  | .ok m => .ok (m.get_credits kwargs)
  | .error e => .error (onImportError current_dir e)

/-- Embeds `_solve` (lines 81-96): if the `_nextflap_engine` attribute is
present, forward the four arguments to the external `_solve` and return its
result; otherwise raise `RuntimeError("NextFLAP engine not properly
initialized")`. -/
def NextFLAPPlanner.solve (τ : AdapterTypes) (self : NextFLAPPlanner τ)
    (problem : τ.Problem) (callback : Option τ.Callback)
    (timeout : Option τ.Timeout) (output_stream : Option τ.Stream) :
    Except PyError τ.PGResult :=
  match self.nextflap_engine with
  | some eng => eng.solveImpl problem callback timeout output_stream
  | none => .error (.runtimeError "NextFLAP engine not properly initialized")

/-- Embeds `_validate` (lines 98-104): same presence check, forwarding the
two arguments to the external `_validate`. -/
def NextFLAPPlanner.validate (τ : AdapterTypes) (self : NextFLAPPlanner τ)
    (problem : τ.Problem) (plan : τ.Plan) : Except PyError τ.VResult :=
  match self.nextflap_engine with
  | some eng => eng.validateImpl problem plan
  | none => .error (.runtimeError "NextFLAP engine not properly initialized")

/-- Embeds `destroy` (lines 106-109): if the engine handle is present, invoke
the external `destroy()` on it (the handle attribute itself is left in
place); otherwise do nothing. -/
def NextFLAPPlanner.destroy (τ : AdapterTypes) (self : NextFLAPPlanner τ) :
    NextFLAPPlanner τ :=
  match self.nextflap_engine with
  | some eng => ⟨some (EngineHandle.destroyCall τ eng)⟩
  | none => self

/-- `sub` occurs as a contiguous substring of `s`. -/
def ContainsSub (s sub : String) : Prop :=
  ∃ a b, s = a ++ sub ++ b

/-- A concrete instantiation of the payload types, used to exercise the
adapter on concrete inputs. -/
abbrev natTypes : AdapterTypes :=
  ⟨Nat, Nat, Nat, Nat, Nat, Nat, Nat, Nat, Nat, Nat⟩

/-- A concrete external engine used to exercise the adapter: its solve always
returns result 42 and its validate always returns result 7. -/
def engW : EngineHandle natTypes :=
  ⟨fun _ _ _ _ => Except.ok 42, fun _ _ => Except.ok 7, 0⟩

/-- A concrete resolvable external module whose constructor succeeds,
producing `engW`. -/
def upW : UpNextflap natTypes :=
  ⟨∅, fun _ => true, fun _ => none, fun _ => Except.ok engW⟩

/-- A concrete resolvable external module whose constructor raises a
non-import exception. -/
def upBoom : UpNextflap natTypes :=
  ⟨∅, fun _ => true, fun _ => none, fun _ => Except.error (PyError.runtimeError "boom")⟩

/-- C1: whenever the external implementation cannot be resolved — at adapter
construction or at any static capability query (supported_kind,
supports_plan, get_credits) — the operation raises the dependency-missing
ImportError built by `_on_import_error`, whose message contains the original
resolution error, the non-empty install-script remediation command, and the
note that building requires native system dependencies. -/
theorem c1_missing_dependency_error (τ : AdapterTypes) (cd e : String)
    (kwargs : τ.Kwargs) (plan_kind : τ.PlanKind) :
    NextFLAPPlanner.init τ cd (Except.error e) kwargs =
      Except.error (onImportError cd e) ∧
    NextFLAPPlanner.supported_kind τ cd (Except.error e) =
      Except.error (onImportError cd e) ∧
    NextFLAPPlanner.supports_plan τ cd (Except.error e) plan_kind =
      Except.error (onImportError cd e) ∧
    NextFLAPPlanner.get_credits τ cd (Except.error e) kwargs =
      Except.error (onImportError cd e) ∧
    ContainsSub (onImportError cd e).msg e ∧
    ContainsSub (onImportError cd e).msg ("bash " ++ cd ++ "/install.sh") ∧
    "bash " ++ cd ++ "/install.sh" ≠ "" ∧
    ContainsSub (onImportError cd e).msg
      "Note: Building NextFLAP requires system dependencies (g++, libz3-dev)." := by
  refine ⟨rfl, rfl, rfl, rfl, ?_, ?_, ?_, ?_⟩
  · exact ⟨"NextFLAP implementation not found. Error: ",
      "\n\n" ++ "To install NextFLAP:\n" ++ "   " ++ "bash " ++ cd ++ "/install.sh" ++
        "\n\n" ++
        "Note: Building NextFLAP requires system dependencies (g++, libz3-dev).",
      by simp only [onImportError, PyError.msg, ← String.append_assoc]⟩
  · exact ⟨"NextFLAP implementation not found. Error: " ++ e ++ "\n\n" ++
        "To install NextFLAP:\n" ++ "   ",
      "\n\n" ++ "Note: Building NextFLAP requires system dependencies (g++, libz3-dev).",
      by simp only [onImportError, PyError.msg, ← String.append_assoc]⟩
  · intro h
    have h2 := congrArg String.length h
    simp [String.length_append] at h2
    exact absurd h2.1.1 (by decide)
  · exact ⟨"NextFLAP implementation not found. Error: " ++ e ++ "\n\n" ++
        "To install NextFLAP:\n" ++ "   " ++ "bash " ++ cd ++ "/install.sh" ++ "\n\n",
      "", by simp only [onImportError, PyError.msg, String.append_empty,
        ← String.append_assoc]⟩

/-- C2: when the implementation resolves, `supports k` returns true iff `k`
is feature-subset less-or-equal to `supported_kind()` (the ProblemKind
partial order), and the empty feature set is supported regardless of what
`supported_kind()` reports. -/
theorem c2_supports_iff_subset (τ : AdapterTypes) (cd : String)
    (m : UpNextflap τ) (pk : ProblemKind) :
    (NextFLAPPlanner.supports τ cd (Except.ok m) pk = Except.ok true ↔
      pk ⊆ m.supported_kind) ∧
    NextFLAPPlanner.supports τ cd (Except.ok m) (∅ : ProblemKind) = Except.ok true := by
  constructor
  · simp [NextFLAPPlanner.supports, NextFLAPPlanner.supported_kind, Except.map]
  · simp [NextFLAPPlanner.supports, NextFLAPPlanner.supported_kind, Except.map]

/-- C3: on an adapter whose construction did not complete (the engine handle
is absent), both solve and validate raise the not-initialized RuntimeError —
a definite error value, so neither a missing-attribute failure nor a silent
no-op is possible. -/
theorem c3_uninitialized_raises (τ : AdapterTypes) (p : NextFLAPPlanner τ)
    (h : p.nextflap_engine = none) (problem : τ.Problem) (callback : Option τ.Callback)
    (timeout : Option τ.Timeout) (output_stream : Option τ.Stream) (plan : τ.Plan) :
    NextFLAPPlanner.solve τ p problem callback timeout output_stream =
      Except.error (PyError.runtimeError "NextFLAP engine not properly initialized") ∧
    NextFLAPPlanner.validate τ p problem plan =
      Except.error (PyError.runtimeError "NextFLAP engine not properly initialized") := by
  obtain ⟨eo⟩ := p
  cases h
  exact ⟨rfl, rfl⟩

/-- Witness for C3 at a concrete uninitialized adapter and concrete inputs. -/
theorem c3_uninitialized_raises_witness :
    NextFLAPPlanner.solve natTypes ⟨none⟩ 0 none none none =
      Except.error (PyError.runtimeError "NextFLAP engine not properly initialized") ∧
    NextFLAPPlanner.validate natTypes ⟨none⟩ 0 1 =
      Except.error (PyError.runtimeError "NextFLAP engine not properly initialized") :=
  c3_uninitialized_raises natTypes ⟨none⟩ rfl 0 none none none 1

/-- C4: on a ready adapter, solve forwards its four arguments and validate
its two arguments to the external engine unchanged and in the same order, and
each returns the external result unchanged. -/
theorem c4_forwarding_unchanged (τ : AdapterTypes) (eng : EngineHandle τ)
    (problem : τ.Problem) (callback : Option τ.Callback) (timeout : Option τ.Timeout)
    (output_stream : Option τ.Stream) (plan : τ.Plan) :
    NextFLAPPlanner.solve τ ⟨some eng⟩ problem callback timeout output_stream =
      eng.solveImpl problem callback timeout output_stream ∧
    NextFLAPPlanner.validate τ ⟨some eng⟩ problem plan =
      eng.validateImpl problem plan :=
  ⟨rfl, rfl⟩

/-- C5: the engine handle exists iff construction succeeded (a successful
`__init__` always stores a handle; a failed one returns no adapter at all),
and every forwarding operation checks the handle before use: with the handle
absent, solve and validate fail with the not-initialized error and destroy is
a no-op. -/
theorem c5_handle_invariant (τ : AdapterTypes) (cd : String) (imp : ImportOutcome τ)
    (kwargs : τ.Kwargs) (p : NextFLAPPlanner τ) (h : p.nextflap_engine = none)
    (problem : τ.Problem) (callback : Option τ.Callback) (timeout : Option τ.Timeout)
    (output_stream : Option τ.Stream) (plan : τ.Plan) :
    (∀ s, NextFLAPPlanner.init τ cd imp kwargs = Except.ok s →
      ∃ eng, s.nextflap_engine = some eng) ∧
    NextFLAPPlanner.solve τ p problem callback timeout output_stream =
      Except.error (PyError.runtimeError "NextFLAP engine not properly initialized") ∧
    NextFLAPPlanner.validate τ p problem plan =
      Except.error (PyError.runtimeError "NextFLAP engine not properly initialized") ∧
    NextFLAPPlanner.destroy τ p = p := by
  obtain ⟨eo⟩ := p
  cases h
  refine ⟨?_, rfl, rfl, rfl⟩
  intro s hs
  cases imp with
  | error e => simp [NextFLAPPlanner.init] at hs
  | ok m =>
    cases hni : m.newImpl kwargs with
    | ok eng =>
      refine ⟨eng, ?_⟩
      simp [NextFLAPPlanner.init, hni] at hs
      rw [← hs]
    | error err =>
      cases err <;> simp [NextFLAPPlanner.init, hni] at hs

/-- Witness for C5 at a concrete import outcome, adapter and inputs. -/
theorem c5_handle_invariant_witness :
    (∀ s, NextFLAPPlanner.init natTypes "pkgdir" (Except.ok upW) 0 = Except.ok s →
      ∃ eng, s.nextflap_engine = some eng) ∧
    NextFLAPPlanner.solve natTypes ⟨none⟩ 0 none none none =
      Except.error (PyError.runtimeError "NextFLAP engine not properly initialized") ∧
    NextFLAPPlanner.validate natTypes ⟨none⟩ 0 1 =
      Except.error (PyError.runtimeError "NextFLAP engine not properly initialized") ∧
    NextFLAPPlanner.destroy natTypes ⟨none⟩ = ⟨none⟩ :=
  c5_handle_invariant natTypes "pkgdir" (Except.ok upW) 0 ⟨none⟩ rfl 0 none none none 1

/-- C6 counterexample: a concrete ready adapter over a concrete external
engine whose solve still returns a result after its destroy was invoked.
After `destroy()` the subsequent solve call returns `ok 42` — it silently
succeeds and raises no error — refuting the claim that a post-destroy solve
always fails. -/
theorem c6_counterexample :
    NextFLAPPlanner.solve natTypes (NextFLAPPlanner.destroy natTypes ⟨some engW⟩)
      0 none none none = Except.ok 42 ∧
    ∀ err, NextFLAPPlanner.solve natTypes (NextFLAPPlanner.destroy natTypes ⟨some engW⟩)
      0 none none none ≠ Except.error err :=
  ⟨rfl, fun _ h => Except.noConfusion (h.symm.trans rfl)⟩

/-- C6 amended: destroy() on a ready adapter invokes the external engine's
destroy but does not make the adapter terminal: the engine handle stays in
place, and a subsequent solve does not raise the not-initialized error but
forwards to the external engine, returning whatever that engine returns —
which may be a silent success. -/
theorem c6_destroy_then_solve (τ : AdapterTypes) (eng : EngineHandle τ)
    (problem : τ.Problem) (callback : Option τ.Callback) (timeout : Option τ.Timeout)
    (output_stream : Option τ.Stream) :
    (NextFLAPPlanner.destroy τ ⟨some eng⟩).nextflap_engine =
      some (EngineHandle.destroyCall τ eng) ∧
    NextFLAPPlanner.solve τ (NextFLAPPlanner.destroy τ ⟨some eng⟩) problem callback
      timeout output_stream = eng.solveImpl problem callback timeout output_stream :=
  ⟨rfl, rfl⟩

/-- C7: destroy() on an adapter without the engine handle is a no-op: the
state is unchanged (in particular no external destroy invocation is recorded
anywhere) and, the guarded branch being skipped, no exception is raised. -/
theorem c7_destroy_noop (τ : AdapterTypes) (p : NextFLAPPlanner τ)
    (h : p.nextflap_engine = none) :
    NextFLAPPlanner.destroy τ p = p := by
  obtain ⟨eo⟩ := p
  cases h
  rfl

/-- Witness for C7 at a concrete never-constructed adapter. -/
theorem c7_destroy_noop_witness :
    NextFLAPPlanner.destroy natTypes ⟨none⟩ = ⟨none⟩ :=
  c7_destroy_noop natTypes ⟨none⟩ rfl

/-- C8: destroy never removes the engine handle: after destroy on a ready
adapter the handle is still present with one recorded external destroy call,
a second destroy invokes the external destroy again (two recorded calls), and
solve and validate still forward to the external engine rather than raising
the not-initialized error. -/
theorem c8_destroy_keeps_handle (τ : AdapterTypes) (eng : EngineHandle τ)
    (problem : τ.Problem) (callback : Option τ.Callback) (timeout : Option τ.Timeout)
    (output_stream : Option τ.Stream) (plan : τ.Plan) :
    (NextFLAPPlanner.destroy τ ⟨some eng⟩).nextflap_engine.map
      (fun h => h.destroyCount) = some (eng.destroyCount + 1) ∧
    (NextFLAPPlanner.destroy τ (NextFLAPPlanner.destroy τ ⟨some eng⟩)).nextflap_engine.map
      (fun h => h.destroyCount) = some (eng.destroyCount + 2) ∧
    NextFLAPPlanner.solve τ (NextFLAPPlanner.destroy τ ⟨some eng⟩) problem callback
      timeout output_stream = eng.solveImpl problem callback timeout output_stream ∧
    NextFLAPPlanner.validate τ (NextFLAPPlanner.destroy τ ⟨some eng⟩) problem plan =
      eng.validateImpl problem plan :=
  ⟨rfl, rfl, rfl, rfl⟩

/-- C9: during construction only an ImportError raised while importing or
instantiating the external implementation is translated into the descriptive
installation error; any other constructor exception propagates unchanged; and
an adapter value (with its handle set) is produced only when the constructor
succeeds. -/
theorem c9_only_import_error_translated (τ : AdapterTypes) (cd : String)
    (m : UpNextflap τ) (kwargs : τ.Kwargs) :
    (∀ s, m.newImpl kwargs = Except.error (PyError.importError s) →
      NextFLAPPlanner.init τ cd (Except.ok m) kwargs =
        Except.error (onImportError cd s)) ∧
    (∀ err, m.newImpl kwargs = Except.error err →
      (∀ s, err ≠ PyError.importError s) →
      NextFLAPPlanner.init τ cd (Except.ok m) kwargs = Except.error err) ∧
    (∀ s, NextFLAPPlanner.init τ cd (Except.ok m) kwargs = Except.ok s →
      ∃ eng, m.newImpl kwargs = Except.ok eng ∧ s.nextflap_engine = some eng) := by
  refine ⟨?_, ?_, ?_⟩
  · intro s hs
    simp [NextFLAPPlanner.init, hs]
  · intro err herr hne
    cases err with
    | importError s => exact absurd rfl (hne s)
    | runtimeError s => simp [NextFLAPPlanner.init, herr]
    | attributeError s => simp [NextFLAPPlanner.init, herr]
    | otherError s => simp [NextFLAPPlanner.init, herr]
  · intro s hs
    cases hni : m.newImpl kwargs with
    | ok eng =>
      refine ⟨eng, rfl, ?_⟩
      simp [NextFLAPPlanner.init, hni] at hs
      rw [← hs]
    | error err =>
      cases err <;> simp [NextFLAPPlanner.init, hni] at hs

/-- Witness for C9: a constructor failing with a RuntimeError propagates it
unchanged through `__init__`. -/
theorem c9_only_import_error_translated_witness :
    NextFLAPPlanner.init natTypes "pkgdir" (Except.ok upBoom) 0 =
      Except.error (PyError.runtimeError "boom") :=
  (c9_only_import_error_translated natTypes "pkgdir" upBoom 0).2.1
    (PyError.runtimeError "boom") rfl (fun _ h => PyError.noConfusion h)

/-- C10: the name property is total and constant: it returns "nextflap" on
every adapter instance, including one with no engine handle, its type neither
consulting the import outcome nor allowing an exception. -/
theorem c10_name_constant (τ : AdapterTypes) (p : NextFLAPPlanner τ) :
    NextFLAPPlanner.name τ p = "nextflap" :=
  rfl
